import Mathlib

/-!
Verification of the newsletter generation pipeline
(`app/agents/news_fetcher.py`, `app/agents/summarizer.py`,
`app/agents/formatter.py`, `app/agents/sender.py`, orchestrated by
`app/scripts/generate_newsletter.py`).

Python strings are modelled as `List Char`, Python dicts with string values
as association lists with in-place update (`aset`), and the two external
capabilities (OpenAI text generation, NewsAPI search) as oracle functions
returning `Except Unit …`: an `.error` models the call raising an exception,
an `.ok` models the text / records it returned.  The SMTP transport and the
Jinja2 template engine are modelled the same way.  The wall-clock date used
by `FormatterAgent._get_formatted_date` is an explicit parameter `today`.
-/

namespace Newsletter

/-- Python strings, as lists of characters. -/
abbrev Str := List Char

/-- Coerce a Lean string literal to the model's string type. -/
def str (s : String) : Str := s.toList

/-- Python `str.strip()`: remove leading and trailing whitespace. -/
def strip (s : Str) : Str :=
  ((s.dropWhile Char.isWhitespace).reverse.dropWhile Char.isWhitespace).reverse

/-- Split at the first occurrence of `sep`: `some (before, after)` when `sep`
occurs in `s`, `none` otherwise.  This is the engine behind Python's
`s.split(sep, 1)` (which returns `[before, after]` or `[s]`) and behind the
Python substring test `sep in s`. -/
def splitFirst (sep : Str) : Str → Option (Str × Str)
  | [] => if sep.isEmpty then some ([], []) else none
  | c :: rest =>
      if List.isPrefixOf sep (c :: rest) then some ([], List.drop sep.length (c :: rest))
      else
        match splitFirst sep rest with
        | some (pre, post) => some (c :: pre, post)
        | none => none

/-- Python `sep in s` (substring containment). -/
def containsSub (sep s : Str) : Bool := (splitFirst sep s).isSome

theorem splitFirst_post_length {sep : Str} (hsep : sep ≠ []) :
    ∀ {s pre post : Str}, splitFirst sep s = some (pre, post) → post.length < s.length := by
  intro s
  induction s with
  | nil =>
      intro pre post h
      simp [splitFirst, List.isEmpty_iff, hsep] at h
  | cons c rest ih =>
      intro pre post h
      rw [splitFirst] at h
      by_cases hp : List.isPrefixOf sep (c :: rest)
      · simp only [hp, if_true] at h
        cases h
        have h1 : 1 ≤ sep.length := by
          cases sep with
          | nil => exact absurd rfl hsep
          | cons a b => simp
        simp only [List.length_drop, List.length_cons]
        omega
      · simp only [hp, if_false] at h
        cases hrec : splitFirst sep rest with
        | none => rw [hrec] at h; exact absurd h (by simp)
        | some pq =>
            rw [hrec] at h
            cases pq with
            | mk p q =>
                injection h with h2
                injection h2 with h3 h4
                subst h4
                have := ih hrec
                simp only [List.length_cons]
                omega

/-- Python `s.split(sep)` (full split, `sep` non-empty): the list of pieces
between consecutive occurrences of `sep`. -/
def pySplit (sep s : Str) : List Str :=
  if hsep : sep = [] then [s]
  else
    match hm : splitFirst sep s with
    | some (pre, post) => pre :: pySplit sep post
    | none => [s]
termination_by s.length
decreasing_by exact splitFirst_post_length hsep hm

/-- Python `sep.join(xs)`. -/
def joinSep (sep : Str) (xs : List Str) : Str := List.intercalate sep xs

/-- Python truthiness-based `a or b` on strings: `b` when `a` is empty. -/
def pyOr (a b : Str) : Str := if a = [] then b else a

/-- A Python dict with `Str` keys: association list, first binding wins. -/
def alookup {α : Type} : List (Str × α) → Str → Option α
  | [], _ => none
  | (k', v) :: rest, k => if k' = k then some v else alookup rest k

/-- Python `d[k] = v`: replace the binding in place, or append a new one. -/
def aset {α : Type} : List (Str × α) → Str → α → List (Str × α)
  | [], k, v => [(k, v)]
  | (k', v') :: rest, k, v =>
      if k' = k then (k, v) :: rest else (k', v') :: aset rest k v

/-- A Python dict whose values are themselves strings (news articles). -/
abbrev Dict := List (Str × Str)

/-- Python `d.get(k, dflt)`. -/
def agetD {α : Type} (d : List (Str × α)) (k : Str) (dflt : α) : α :=
  (alookup d k).getD dflt

theorem alookup_aset_self {α : Type} (d : List (Str × α)) (k : Str) (v : α) :
    alookup (aset d k v) k = some v := by
  induction d with
  | nil => simp [aset, alookup]
  | cons p rest ih =>
      cases p with
      | mk k' v' =>
          by_cases h : k' = k
          · simp [aset, alookup, h]
          · simp [aset, alookup, h, ih]

theorem alookup_aset_ne {α : Type} (d : List (Str × α)) {k k' : Str} (v : α)
    (h : k' ≠ k) : alookup (aset d k v) k' = alookup d k' := by
  have hk : ¬ k = k' := fun he => h he.symm
  induction d with
  | nil => simp [aset, alookup, hk]
  | cons p rest ih =>
      cases p with
      | mk k0 v0 =>
          by_cases h0 : k0 = k
          · subst h0
            simp [aset, alookup, hk]
          · by_cases h1 : k0 = k'
            · simp [aset, alookup, h0, h1, h]
            · simp [aset, alookup, h0, h1, h, ih]

theorem keys_aset_not_mem {α : Type} (d : List (Str × α)) {k : Str} (v : α)
    (h : k ∉ d.map Prod.fst) :
    (aset d k v).map Prod.fst = d.map Prod.fst ++ [k] := by
  induction d with
  | nil => simp [aset]
  | cons p rest ih =>
      cases p with
      | mk k0 v0 =>
          simp only [List.map_cons, List.mem_cons] at h
          push_neg at h
          have h0 : k0 ≠ k := fun he => h.1 he.symm
          simp [aset, h0, ih h.2]

theorem mem_aset {α : Type} (d : List (Str × α)) (k : Str) (v : α) :
    ∀ p ∈ aset d k v, p ∈ d ∨ p = (k, v) := by
  induction d with
  | nil => intro p hp; simp [aset] at hp; simp [hp]
  | cons q rest ih =>
      cases q with
      | mk k0 v0 =>
          intro p hp
          by_cases h0 : k0 = k
          · simp only [aset, h0, if_true, List.mem_cons] at hp
            rcases hp with hp | hp
            · right; exact hp
            · left; simp [hp]
          · simp only [aset, h0, if_false, List.mem_cons] at hp
            rcases hp with hp | hp
            · left; simp [hp]
            · rcases ih p hp with h | h
              · left; simp [h]
              · right; exact h

/-! ## External capabilities as oracles -/

/-- One call to the OpenAI text-generation capability, identified by the call
site and the data the prompt is built from.  The five call sites are
`NewsFetcherAgent._get_search_terms`, `SummarizerAgent._generate_topic_summary`,
`SummarizerAgent._summarize_article`, `FormatterAgent._generate_title` and
`FormatterAgent._generate_introduction`. -/
inductive GenCall where
  | searchTerms (topicName topicDesc : Str)
  | topicSummary (topic : Str) (items : List Dict)
  | articleSummary (topic : Str) (article : Dict) (includeRelevance : Bool) (maxLen : Nat)
  | title (userName : Str) (topics : List Str)
  | intro (userName : Str) (topics : List Str)

/-- A behaviour of the generation capability: for each call, either the text
it returns (`.ok`) or a raised exception (`.error`). -/
abbrev GenOracle := GenCall → Except Unit Str

/-- A raw NewsAPI article record, before processing. -/
structure RawArticle where
  title : Str
  description : Str
  content : Str
  url : Str
  sourceName : Str
  publishedAt : Str

/-- A behaviour of the search capability: `newsapi.get_everything` for a given
query and language either returns records or raises. -/
abbrev SearchOracle := Str → Str → Except Unit (List RawArticle)

/-! ## NewsFetcherAgent (app/agents/news_fetcher.py) -/

/-- The processed-article dict built for each raw record in
`NewsFetcherAgent._fetch_from_news_api` (lines 134-144). -/
def processArticle (query : Str) (a : RawArticle) : Dict :=
  [(str "title", a.title), (str "description", a.description),
   (str "content", a.content), (str "url", a.url), (str "source", a.sourceName),
   (str "published_at", a.publishedAt), (str "search_term", query)]

/-- `NewsFetcherAgent._fetch_from_news_api`: one search request; a failure is
caught and yields the empty list (lines 123-149). -/
def fetch_from_news_api (search : SearchOracle) (query language : Str) : List Dict :=
  match search query language with
  | .ok arts => arts.map (processArticle query)
  | .error _ => []

/-- `NewsFetcherAgent._get_search_terms`: ask the generation capability for
comma-separated search terms; on failure fall back to the topic name itself
(lines 68-110). -/
def get_search_terms (gen : GenOracle) (topicName topicDesc : Str) : List Str :=
  match gen (.searchTerms topicName topicDesc) with
  | .ok text => (pySplit (str ",") (strip text)).map strip
  | .error _ => [topicName]

/-- A topic record (`id`, `name`, optional `description`). -/
structure Topic where
  id : Str
  name : Str
  description : Str

/-- The per-topic accumulation loop of `NewsFetcherAgent.get_news_for_topics`
(lines 50-62): extend with each query's articles; once the accumulated list
reaches `cap` (`max_articles_per_topic`), truncate to `cap` and break. -/
def fetchLoop (search : SearchOracle) (language : Str) (cap : Nat) :
    List Str → List Dict → List Dict
  | [], acc => acc
  | term :: rest, acc =>
      let acc' := acc ++ fetch_from_news_api search term language
      if cap ≤ acc'.length then acc'.take cap
      else fetchLoop search language cap rest acc'

/-- `NewsFetcherAgent.get_news_for_topics` (lines 29-66): one dict entry per
topic, keyed by the topic's name. -/
def get_news_for_topics (gen : GenOracle) (search : SearchOracle) (cap : Nat)
    (topics : List Topic) (language : Str) : List (Str × List Dict) :=
  topics.foldl
    (fun results t =>
      aset results t.name
        (fetchLoop search language cap (get_search_terms gen t.name t.description) []))
    []

/-! ## SummarizerAgent (app/agents/summarizer.py) -/

/-- The constructor arguments of `SummarizerAgent` (defaults 150, `True`). -/
structure SummarizerConfig where
  max_summary_length : Nat
  include_relevance : Bool

/-- The marker the response is split on first (`"Relevancia:"`). -/
def relevanciaMarker : Str := str "Relevancia:"

/-- The optional marker inside the part before the relevance marker
(`"Resumen:"`). -/
def resumenMarker : Str := str "Resumen:"

/-- The response-parsing step of `SummarizerAgent._summarize_article`
(lines 182-195), for the `include_relevance` case: split on the first
`"Relevancia:"`; within the part before it, if `"Resumen:"` occurs take the
text after it (stripped) as the summary, otherwise the whole part (stripped);
the part after `"Relevancia:"` (stripped) is the relevance.  With no
`"Relevancia:"` marker the whole text is the summary and the relevance is
empty. -/
def parseSummaryResponse (response_text : Str) : Str × Str :=
  match splitFirst relevanciaMarker response_text with
  | some (summary_part, after) =>
      let relevance := strip after
      let summary :=
        match splitFirst resumenMarker summary_part with
        | some (_, aft) => strip aft
        | none => strip summary_part
      (summary, relevance)
  | none => (response_text, [])

/-- `SummarizerAgent._generate_topic_summary` (lines 68-115): one generation
call; on failure a canned unavailable string. -/
def generate_topic_summary (gen : GenOracle) (topic : Str) (news_items : List Dict) : Str :=
  match gen (.topicSummary topic news_items) with
  | .ok resp => strip resp
  | .error _ => str "Resumen no disponible para '" ++ topic ++ str "'."

/-- `SummarizerAgent._summarize_article` (lines 117-215): one generation call
per article; on success parse the response and attach `summary` (and
`relevance` when non-empty); on failure fall back to the article's own
description (or a canned string when that is empty) and a canned relevance. -/
def summarize_article (gen : GenOracle) (cfg : SummarizerConfig) (topic : Str)
    (article : Dict) : Dict :=
  let description := agetD article (str "description") []
  match gen (.articleSummary topic article cfg.include_relevance cfg.max_summary_length) with
  | .ok resp =>
      let response_text := strip resp
      let sr :=
        if cfg.include_relevance then parseSummaryResponse response_text
        else (response_text, ([] : Str))
      let summarized := aset article (str "summary") sr.1
      if sr.2 ≠ [] then aset summarized (str "relevance") sr.2 else summarized
  | .error _ =>
      let summarized :=
        aset article (str "summary") (pyOr description (str "Resumen no disponible."))
      if cfg.include_relevance then
        aset summarized (str "relevance") (str "Información no disponible.")
      else summarized

/-- The per-topic value stored by `SummarizerAgent.summarize_news_by_topic`:
a dict with keys `summary` and `articles`. -/
structure TopicResult where
  summary : Str
  articles : List Dict
deriving DecidableEq

/-- The canned synopsis for a topic with no news items
(`summarize_news_by_topic` lines 41-44). -/
def cannedNoNews (topic : Str) : Str :=
  str "No se encontraron noticias para el tópico '" ++ topic ++ str "'."

/-- `SummarizerAgent.summarize_news_by_topic` (lines 27-66): topics with an
empty item list short-circuit to the canned synopsis; otherwise one topic
summary plus one summarized article per item. -/
def summarize_news_by_topic (gen : GenOracle) (cfg : SummarizerConfig)
    (news_by_topic : List (Str × List Dict)) : List (Str × TopicResult) :=
  news_by_topic.foldl
    (fun results p =>
      if p.2 = [] then aset results p.1 ⟨cannedNoNews p.1, []⟩
      else
        aset results p.1
          ⟨generate_topic_summary gen p.1 p.2,
           p.2.map (summarize_article gen cfg p.1)⟩)
    []

/-! ## FormatterAgent (app/agents/formatter.py) -/

/-- One topic entry of the Jinja2 template context (`format_newsletter`
lines 72-78). -/
structure TopicBlock where
  name : Str
  summary : Str
  articles : List Dict
deriving DecidableEq

/-- The Jinja2 template context (`format_newsletter` lines 63-69). -/
structure TemplateData where
  user_name : Str
  newsletter_title : Str
  introduction : Str
  topics : List TopicBlock
  date : Str
deriving DecidableEq

/-- A behaviour of the Jinja2 engine: `env.get_template(...).render(...)`
either returns markup or raises (template lookup or rendering failure). -/
abbrev TemplateOracle := TemplateData → Except Unit Str

/-- Python `s.upper()`. -/
def pyUpper (s : Str) : Str := s.map Char.toUpper

/-- A quote character, for Python `title.strip('"\'')`. -/
def isQuoteChar (c : Char) : Bool := c == '"' || c == '\''

/-- Python `s.strip('"\'')`: strip quote characters from both ends. -/
def stripQuotes (s : Str) : Str :=
  ((s.dropWhile isQuoteChar).reverse.dropWhile isQuoteChar).reverse

/-- The `", "`-joined first three topic names, with `suffix` appended when
there are more than three (`_generate_title` lines 110-112 with
`" y más"`, `_generate_introduction` lines 152-154 with `" y otros temas"`). -/
def topicsText (suffix : Str) (topics : List Str) : Str :=
  let t := joinSep (str ", ") (topics.take 3)
  if 3 < topics.length then t ++ suffix else t

/-- `FormatterAgent._generate_title` (lines 99-139): one generation call,
response stripped of whitespace then of surrounding quotes; deterministic
fallback title on failure. -/
def generate_title (gen : GenOracle) (user_name : Str) (topics : List Str) : Str :=
  match gen (.title user_name topics) with
  | .ok resp => stripQuotes (strip resp)
  | .error _ => str "Tu Resumen de Noticias: " ++ topicsText (str " y más") topics

/-- `FormatterAgent._generate_introduction` (lines 141-178): one generation
call; deterministic fallback greeting on failure. -/
def generate_introduction (gen : GenOracle) (user_name : Str) (topics : List Str) : Str :=
  match gen (.intro user_name topics) with
  | .ok resp => strip resp
  | .error _ =>
      str "Hola " ++ user_name ++ str ", aquí tienes tu resumen de noticias sobre "
        ++ topicsText (str " y otros temas") topics ++ str " para hoy."

/-- The template context `FormatterAgent.format_newsletter` assembles
(lines 52-78): personalized title and introduction, one block per topic, the
formatted current date. -/
def mk_template_data (gen : GenOracle) (today : Str) (user_data : Dict)
    (summarized_news : List (Str × TopicResult)) : TemplateData :=
  let user_name := agetD user_data (str "name") (str "Usuario")
  let topicNames := summarized_news.map Prod.fst
  { user_name := user_name
    newsletter_title := generate_title gen user_name topicNames
    introduction := generate_introduction gen user_name topicNames
    topics := summarized_news.map (fun p => ⟨p.1, p.2.summary, p.2.articles⟩)
    date := today }

/-- One numbered article of the plain-text rendering
(`_generate_text_version` lines 199-204). -/
def article_text (i : Nat) (article : Dict) : Str :=
  str (toString i) ++ str ". " ++ agetD article (str "title") (str "Sin título") ++ str "\n"
    ++ str "   " ++ agetD article (str "summary") (str "Sin resumen") ++ str "\n"
    ++ (match alookup article (str "relevance") with
        | some r => str "   Relevancia: " ++ r ++ str "\n"
        | none => [])
    ++ str "   Fuente: " ++ agetD article (str "source") (str "Desconocida")
    ++ str " - " ++ agetD article (str "url") [] ++ str "\n\n"

/-- One topic section of the plain-text rendering
(`_generate_text_version` lines 195-206). -/
def topic_text (tb : TopicBlock) : Str :=
  str "🔷 " ++ pyUpper tb.name ++ str "\n" ++ tb.summary ++ str "\n\n"
    ++ ((List.enumFrom 1 tb.articles).map (fun p => article_text p.1 p.2)).flatten
    ++ str "\n"

/-- `FormatterAgent._generate_text_version` (lines 180-211): the plain-text
body assembled directly from the template context. -/
def generate_text_version (td : TemplateData) : Str :=
  str "📰 " ++ td.newsletter_title ++ str "\n"
    ++ str "📅 " ++ td.date ++ str "\n\n"
    ++ str "Hola " ++ td.user_name ++ str ",\n\n"
    ++ td.introduction ++ str "\n\n"
    ++ (td.topics.map topic_text).flatten
    ++ str "¡Gracias por leer tu newsletter personalizado!\n"
    ++ str "Recibe este resumen diariamente según tus intereses.\n"

/-- One article of the fallback markup (`_generate_simple_html`
lines 405-419). -/
def simple_html_article (article : Dict) : Str :=
  str "<div style=\"margin-bottom: 20px; padding-bottom: 10px; border-bottom: 1px solid #eee;\">\n<h3>"
    ++ agetD article (str "title") (str "Sin título") ++ str "</h3>\n<p>"
    ++ agetD article (str "summary") (str "Sin resumen") ++ str "</p>\n"
    ++ (match alookup article (str "relevance") with
        | some r => str "<p><strong>Relevancia:</strong> " ++ r ++ str "</p>"
        | none => [])
    ++ str "<p>Fuente: " ++ agetD article (str "source") (str "Desconocida")
    ++ str " - \n<a href=\"" ++ pyOr (agetD article (str "url") []) (str "#")
    ++ str "\" target=\"_blank\">Leer más</a></p>\n</div>\n"

/-- One topic of the fallback markup (`_generate_simple_html`
lines 399-403). -/
def simple_html_topic (tb : TopicBlock) : Str :=
  str "<h2>" ++ tb.name ++ str "</h2>\n<p><em>" ++ tb.summary ++ str "</em></p>\n"
    ++ (tb.articles.map simple_html_article).flatten

/-- `FormatterAgent._generate_simple_html` (lines 376-430): the
programmatically assembled fallback markup used when the template engine
raises. -/
def generate_simple_html (data : TemplateData) : Str :=
  str "<!DOCTYPE html>\n<html>\n<head>\n<title>" ++ data.newsletter_title
    ++ str "</title>\n</head>\n<body style=\"font-family: Arial, sans-serif; max-width: 800px; margin: 0 auto; padding: 20px;\">\n<h1>"
    ++ data.newsletter_title ++ str "</h1>\n<p>" ++ data.date ++ str "</p>\n<p>Hola "
    ++ data.user_name ++ str ",</p>\n<p>" ++ data.introduction ++ str "</p>\n"
    ++ (data.topics.map simple_html_topic).flatten
    ++ str "<p style=\"margin-top: 30px; padding-top: 10px; border-top: 1px solid #eee;\">\n¡Gracias por leer tu newsletter personalizado!<br>\nRecibe este resumen diariamente según tus intereses.\n</p>\n</body>\n</html>\n"

/-- `FormatterAgent.format_newsletter` (lines 41-97): build the template
context, render markup through the template engine with the fallback on
failure, assemble the plain-text version, and return the dict with keys
`html`, `text`, `title`, `subject`. -/
def format_newsletter (gen : GenOracle) (tmpl : TemplateOracle) (today : Str)
    (user_data : Dict) (summarized_news : List (Str × TopicResult)) : Dict :=
  let td := mk_template_data gen today user_data summarized_news
  let html_content :=
    match tmpl td with
    | .ok h => h
    | .error _ => generate_simple_html td
  let text_content := generate_text_version td
  [(str "html", html_content), (str "text", text_content),
   (str "title", td.newsletter_title),
   (str "subject", td.newsletter_title ++ str " - " ++ today)]

/-! ## SenderAgent (app/agents/sender.py) -/

/-- The mail configuration read from `app/core/config.py`: `EMAIL_HOST`,
`EMAIL_PORT` (an int, `0` falsy), `EMAIL_USERNAME`, `EMAIL_PASSWORD`,
`EMAIL_FROM`; an unset string variable is the empty string. -/
structure EmailConfig where
  host : Str
  port : Nat
  username : Str
  password : Str
  efrom : Str

/-- The multipart message `_send_by_email` builds (lines 88-100): a part is
attached only when the corresponding content is non-empty. -/
structure MimeMessage where
  subject : Str
  mfrom : Str
  mto : Str
  textPart : Option Str
  htmlPart : Option Str

/-- A behaviour of the SMTP transport: the whole session (connect, starttls,
login, send_message, quit) either completes or raises with an error text. -/
abbrev SmtpOracle := Str → Nat → Str → Str → MimeMessage → Except Str Unit

/-- `SenderAgent._send_by_email` (lines 67-139).  `.error e` models the
method re-raising the transport exception `e` (line 139); every other path
returns an outcome dict. -/
structure SendOutcome where
  success : Bool
  message : Str
  channel : Str
  recipient : Option Str
  subject : Option Str
deriving DecidableEq

/-- Whether `all([EMAIL_HOST, EMAIL_PORT, EMAIL_USERNAME, EMAIL_PASSWORD])`
holds (line 105): every credential is truthy. -/
def emailConfigured (cfg : EmailConfig) : Prop :=
  cfg.host ≠ [] ∧ cfg.port ≠ 0 ∧ cfg.username ≠ [] ∧ cfg.password ≠ []

instance (cfg : EmailConfig) : Decidable (emailConfigured cfg) := by
  unfold emailConfigured; infer_instance

/-- `SenderAgent._send_by_email` (lines 67-139). -/
def send_by_email (cfg : EmailConfig) (smtp : SmtpOracle)
    (user_data newsletter_data : Dict) : Except Str SendOutcome :=
  let email := agetD user_data (str "email") []
  if email = [] then
    .ok ⟨false, str "No se proporcionó dirección de correo electrónico", str "email",
         none, none⟩
  else
    let subject := agetD newsletter_data (str "subject") (str "Tu Newsletter Personalizado")
    let text_content := agetD newsletter_data (str "text") []
    let html_content := agetD newsletter_data (str "html") []
    let msg : MimeMessage :=
      ⟨subject, cfg.efrom, email,
       if text_content ≠ [] then some text_content else none,
       if html_content ≠ [] then some html_content else none⟩
    if emailConfigured cfg then
      match smtp cfg.host cfg.port cfg.username cfg.password msg with
      | .ok _ =>
          .ok ⟨true, str "Newsletter enviado exitosamente", str "email",
               some email, some subject⟩
      | .error e => .error e
    else
      .ok ⟨true, str "Simulación de envío exitosa (modo desarrollo)", str "email",
           some email, some subject⟩

/-- `SenderAgent._send_by_whatsapp_dummy` (lines 141-170). -/
def send_by_whatsapp_dummy (user_data newsletter_data : Dict) : Except Str SendOutcome :=
  let phone := agetD user_data (str "phone") []
  if phone = [] then
    .ok ⟨false, str "No se proporcionó número de teléfono", str "whatsapp", none, none⟩
  else
    .ok ⟨true, str "Simulación de envío por WhatsApp exitosa", str "whatsapp",
         some phone, none⟩

/-- `SenderAgent._send_by_telegram_dummy` (lines 172-201). -/
def send_by_telegram_dummy (user_data newsletter_data : Dict) : Except Str SendOutcome :=
  let telegram_id := agetD user_data (str "telegram_id") []
  if telegram_id = [] then
    .ok ⟨false, str "No se proporcionó ID de Telegram", str "telegram", none, none⟩
  else
    .ok ⟨true, str "Simulación de envío por Telegram exitosa", str "telegram",
         some telegram_id, none⟩

/-- The fixed channel registry built in `SenderAgent.__init__` (lines 28-32). -/
def channelRegistry : List Str := [str "email", str "whatsapp", str "telegram"]

/-- `SenderAgent.send_newsletter` (lines 34-65): an unknown channel yields an
immediate failed outcome; a raised channel exception is caught and converted
into a failed outcome. -/
def send_newsletter (cfg : EmailConfig) (smtp : SmtpOracle)
    (user_data newsletter_data : Dict) (channel : Str) : SendOutcome :=
  if channel ∈ channelRegistry then
    let result :=
      if channel = str "email" then send_by_email cfg smtp user_data newsletter_data
      else if channel = str "whatsapp" then send_by_whatsapp_dummy user_data newsletter_data
      else send_by_telegram_dummy user_data newsletter_data
    match result with
    | .ok r => r
    | .error e => ⟨false, str "Error al enviar: " ++ e, channel, none, none⟩
  else
    ⟨false, str "Canal no soportado: " ++ channel, channel, none, none⟩

/-! ## The mock-data pipeline run
(app/scripts/generate_newsletter.py, `generate_and_send_newsletter` with
`mock_data=True`) -/

/-- The fixed placeholder user (lines 64-70). -/
def mockUser (user_id : Str) : Dict :=
  [(str "id", user_id), (str "name", str "Usuario de Prueba"),
   (str "email", str "test@example.com"), (str "phone", str "+1234567890"),
   (str "telegram_id", str "12345678")]

/-- The fixed placeholder topics (lines 71-74). -/
def mockTopics : List Topic :=
  [⟨str "1", str "Inteligencia Artificial", str "Avances en IA y machine learning"⟩,
   ⟨str "2", str "Cambio Climático", str "Noticias sobre el medio ambiente y cambio climático"⟩]

/-- One mock-data pipeline run (`generate_and_send_newsletter`, lines 55-105,
`mock_data=True` branch): fetch, condense, format, send, with the agents'
default constructor arguments.  Returns the formatted newsletter dict and the
delivery outcome. -/
def run_pipeline_mock (gen : GenOracle) (search : SearchOracle) (tmpl : TemplateOracle)
    (cfg : EmailConfig) (smtp : SmtpOracle) (today user_id channel language : Str) :
    Dict × SendOutcome :=
  let user_data := mockUser user_id
  let topics := mockTopics
  let news_results := get_news_for_topics gen search 3 topics language
  let summarized_news := summarize_news_by_topic gen ⟨150, true⟩ news_results
  let formatted := format_newsletter gen tmpl today user_data summarized_news
  (formatted, send_newsletter cfg smtp user_data formatted channel)

/-- The plain-text body (`text` field) produced by one mock-data pipeline
run. -/
def pipeline_text (gen : GenOracle) (search : SearchOracle) (tmpl : TemplateOracle)
    (cfg : EmailConfig) (smtp : SmtpOracle) (today user_id channel language : Str) : Str :=
  agetD (run_pipeline_mock gen search tmpl cfg smtp today user_id channel language).1
    (str "text") []

/-! ## Specification-side definitions

Independent formulations used to state the claims against the embedded code:
an index-based first-occurrence splitter, the claim's reading of the response
parser, and the per-topic condensation value. -/

/-- The index of the first occurrence of `sep` in `s` (`none` when `sep` does
not occur).  An independent, index-based account of first-occurrence
splitting, used to state the response-parsing claims. -/
def findOcc (sep : Str) : Str → Option Nat
  | [] => if sep.isEmpty then some 0 else none
  | c :: rest =>
      if List.isPrefixOf sep (c :: rest) then some 0
      else (findOcc sep rest).map (· + 1)

/-- The response parser exactly as claim C2 words it: split on the first
`"Relevancia:"` marker; the text *before* an optional `"Resumen:"` marker
(when that marker is present in the part before the relevance marker) is
the synopsis, the text after the relevance marker is the relevance note;
with no relevance marker the whole text is the synopsis.  (Whitespace
stripping as in the code.) -/
def claimC2Parse (t : Str) : Str × Str :=
  match findOcc relevanciaMarker t with
  | some i =>
      let pre := t.take i
      let relevance := strip (t.drop (i + relevanciaMarker.length))
      let summary :=
        match findOcc resumenMarker pre with
        | some j => strip (pre.take j)
        | none => strip pre
      (summary, relevance)
  | none => (t, [])

/-- The amended reading of claim C2: as `claimC2Parse`, except that the text
*after* the optional `"Resumen:"` marker (the marker and whatever precedes it
dropped) is the synopsis. -/
def amendedC2Parse (t : Str) : Str × Str :=
  match findOcc relevanciaMarker t with
  | some i =>
      let pre := t.take i
      let relevance := strip (t.drop (i + relevanciaMarker.length))
      let summary :=
        match findOcc resumenMarker pre with
        | some j => strip (pre.drop (j + resumenMarker.length))
        | none => strip pre
      (summary, relevance)
  | none => (t, [])

/-- The value `summarize_news_by_topic` stores for one input entry. -/
def topicValue (gen : GenOracle) (cfg : SummarizerConfig) (p : Str × List Dict) :
    TopicResult :=
  if p.2 = [] then ⟨cannedNoNews p.1, []⟩
  else ⟨generate_topic_summary gen p.1 p.2, p.2.map (summarize_article gen cfg p.1)⟩

/-! ## Concrete oracles and records for the witness theorems -/

/-- A concrete raw search record. -/
def rawW : RawArticle := ⟨str "t", str "d", str "c", str "u", str "s", str "p"⟩

/-- A search behaviour returning four records for every query. -/
def searchW : SearchOracle := fun _ _ => Except.ok [rawW, rawW, rawW, rawW]

/-- A generation behaviour answering every call with `"a,b"`. -/
def genW : GenOracle := fun _ => Except.ok (str "a,b")

/-- A generation behaviour that raises on every call. -/
def genFail : GenOracle := fun _ => Except.error ()

/-- A search behaviour that raises on every request. -/
def searchFail : SearchOracle := fun _ _ => Except.error ()

/-- A template engine that raises on every call. -/
def tmplFail : TemplateOracle := fun _ => Except.error ()

/-- An SMTP transport that raises on every session. -/
def smtpFail : SmtpOracle := fun _ _ _ _ _ => Except.error (str "boom")

/-- An SMTP transport whose sessions complete. -/
def smtpOk : SmtpOracle := fun _ _ _ _ _ => Except.ok ()

/-- The unconfigured mail credentials (development mode). -/
def cfgEmpty : EmailConfig := ⟨[], 0, [], [], []⟩

/-- A fully configured set of mail credentials. -/
def cfgFull : EmailConfig := ⟨str "smtp.example.com", 587, str "user", str "pass", str "from@example.com"⟩

/-- Two concrete topics with distinct names. -/
def topicsW : List Topic := [⟨str "1", str "A", str ""⟩, ⟨str "2", str "B", str ""⟩]

/-- A concrete items-by-topic mapping with distinct keys. -/
def newsW : List (Str × List Dict) := [(str "A", []), (str "B", [[(str "title", str "T")]])]

/-! ## Shared lemmas -/

theorem splitFirst_eq_findOcc (sep : Str) :
    ∀ s : Str, splitFirst sep s
      = (findOcc sep s).map (fun i => (s.take i, s.drop (i + sep.length))) := by
  intro s
  induction s with
  | nil =>
      by_cases h : sep.isEmpty
      · simp [splitFirst, findOcc, h]
      · simp [splitFirst, findOcc, h]
  | cons c rest ih =>
      by_cases hp : List.isPrefixOf sep (c :: rest)
      · simp [splitFirst, findOcc, hp]
      · simp only [splitFirst, findOcc, hp, if_false]
        cases hf : findOcc sep rest with
        | none => rw [ih, hf]; simp
        | some i =>
            rw [ih, hf]
            simp [List.take_succ_cons, List.drop_succ_cons, Nat.add_right_comm]

theorem aset_not_mem {α : Type} (d : List (Str × α)) (k : Str) (v : α)
    (h : k ∉ d.map Prod.fst) : aset d k v = d ++ [(k, v)] := by
  induction d with
  | nil => simp [aset]
  | cons p rest ih =>
      cases p with
      | mk k0 v0 =>
          simp only [List.map_cons, List.mem_cons] at h
          push_neg at h
          have h0 : k0 ≠ k := fun he => h.1 he.symm
          simp [aset, h0, ih h.2]

theorem foldl_aset_append {α β : Type} (f : β → Str) (g : β → α) :
    ∀ (l : List β) (init : List (Str × α)),
      (l.map f).Nodup → (∀ b ∈ l, f b ∉ init.map Prod.fst) →
      l.foldl (fun r b => aset r (f b) (g b)) init
        = init ++ l.map (fun b => (f b, g b)) := by
  intro l
  induction l with
  | nil => intro init _ _; simp
  | cons b rest ih =>
      intro init hnd hdisj
      simp only [List.map_cons, List.nodup_cons] at hnd
      have hfresh : f b ∉ init.map Prod.fst := hdisj b (by simp)
      have hstep : aset init (f b) (g b) = init ++ [(f b, g b)] :=
        aset_not_mem _ _ _ hfresh
      have hdisj' : ∀ b' ∈ rest, f b' ∉ (init ++ [(f b, g b)]).map Prod.fst := by
        intro b' hb'
        simp only [List.map_append, List.mem_append, List.map_cons, List.map_nil,
          List.mem_singleton]
        push_neg
        refine ⟨hdisj b' (List.mem_cons_of_mem _ hb'), ?_⟩
        intro hmem
        exact hnd.1 (by rw [← hmem]; exact List.mem_map_of_mem f hb')
      simp only [List.foldl_cons]
      rw [hstep, ih (init ++ [(f b, g b)]) hnd.2 hdisj']
      simp

theorem alookup_foldl_aset_not_mem {α β : Type} (f : β → Str) (g : β → α) :
    ∀ (l : List β) (init : List (Str × α)) (k : Str), k ∉ l.map f →
      alookup (l.foldl (fun r b => aset r (f b) (g b)) init) k = alookup init k := by
  intro l
  induction l with
  | nil => intro init k _; rfl
  | cons b rest ih =>
      intro init k hk
      simp only [List.map_cons, List.mem_cons] at hk
      push_neg at hk
      simp only [List.foldl_cons]
      rw [ih _ k hk.2, alookup_aset_ne _ _ hk.1]

theorem alookup_foldl_aset_pairs {α γ : Type} (g : Str × γ → α) :
    ∀ (l : List (Str × γ)) (init : List (Str × α)) (k : Str) (items : γ),
      (l.map Prod.fst).Nodup → alookup l k = some items →
      alookup (l.foldl (fun r p => aset r p.1 (g p)) init) k = some (g (k, items)) := by
  intro l
  induction l with
  | nil => intro init k items _ h; simp [alookup] at h
  | cons p rest ih =>
      intro init k items hnd hlk
      cases p with
      | mk t its =>
          simp only [List.map_cons, List.nodup_cons] at hnd
          simp only [List.foldl_cons]
          by_cases ht : t = k
          · subst ht
            simp only [alookup, if_pos rfl] at hlk
            injection hlk with h1
            subst h1
            rw [alookup_foldl_aset_not_mem Prod.fst g rest _ t hnd.1, alookup_aset_self]
          · simp only [alookup, if_neg ht] at hlk
            exact ih _ k items hnd.2 hlk

theorem summarize_eq_foldl (gen : GenOracle) (cfg : SummarizerConfig)
    (news : List (Str × List Dict)) :
    summarize_news_by_topic gen cfg news
      = news.foldl (fun r p => aset r p.1 (topicValue gen cfg p)) [] := by
  unfold summarize_news_by_topic
  congr 1
  funext r p
  by_cases h : p.2 = [] <;> simp [topicValue, h]

theorem mem_foldl_aset_values {α β : Type} (f : β → Str) (g : β → α) (P : α → Prop) :
    ∀ (l : List β) (init : List (Str × α)),
      (∀ q ∈ init, P q.2) → (∀ b ∈ l, P (g b)) →
      ∀ q ∈ l.foldl (fun r b => aset r (f b) (g b)) init, P q.2 := by
  intro l
  induction l with
  | nil => intro init hinit _ q hq; exact hinit q hq
  | cons b rest ih =>
      intro init hinit hval q hq
      refine ih _ ?_ (fun b' hb' => hval b' (List.mem_cons_of_mem _ hb')) q hq
      intro q' hq'
      rcases mem_aset init (f b) (g b) q' hq' with h | h
      · exact hinit q' h
      · rw [h]; exact hval b (by simp)

theorem fetchLoop_length_le (search : SearchOracle) (language : Str) (cap : Nat) :
    ∀ (terms : List Str) (acc : List Dict), acc.length ≤ cap →
      (fetchLoop search language cap terms acc).length ≤ cap := by
  intro terms
  induction terms with
  | nil => intro acc h; simpa [fetchLoop] using h
  | cons term rest ih =>
      intro acc h
      simp only [fetchLoop]
      by_cases hc : cap ≤ (acc ++ fetch_from_news_api search term language).length
      · simp only [hc, if_true, List.length_take]
        omega
      · simp only [hc, if_false]
        exact ih _ (by omega)

theorem fetchLoop_stop (search : SearchOracle) (language : Str) (cap : Nat)
    (term : Str) (rest : List Str) (acc : List Dict)
    (h : cap ≤ (acc ++ fetch_from_news_api search term language).length) :
    fetchLoop search language cap (term :: rest) acc
      = (acc ++ fetch_from_news_api search term language).take cap := by
  simp only [fetchLoop]
  rw [if_pos h]

theorem fetchLoop_all_fail (search : SearchOracle) (language : Str) (cap : Nat)
    (hs : ∀ q l, search q l = Except.error ()) :
    ∀ terms : List Str, fetchLoop search language cap terms [] = [] := by
  intro terms
  induction terms with
  | nil => rfl
  | cons term rest ih =>
      have hfetch : fetch_from_news_api search term language = [] := by
        simp [fetch_from_news_api, hs]
      simp only [fetchLoop, hfetch, List.append_nil]
      split <;> simp [ih]

theorem append_ne_nil_left {a b : Str} (h : a ≠ []) : a ++ b ≠ [] := by
  intro hab
  rcases List.append_eq_nil.mp hab with ⟨h1, _⟩
  exact h h1

theorem agetD_cons_ne {α : Type} (k' k : Str) (v : α) (d : List (Str × α)) (dflt : α)
    (h : ¬ k' = k) : agetD ((k', v) :: d) k dflt = agetD d k dflt := by
  simp [agetD, alookup, h]

theorem agetD_cons_self {α : Type} (k : Str) (v : α) (d : List (Str × α)) (dflt : α) :
    agetD ((k, v) :: d) k dflt = v := by
  simp [agetD, alookup]

/-! ## Claim C2 -/

/-- C2, counterexample.  The claim says the text *before* the optional
`"Resumen:"` marker becomes the synopsis.  On response
`"Resumen: Hola mundo Relevancia: Importante"` the code's parser
(`SummarizerAgent._summarize_article` lines 182-195) produces the synopsis
`"Hola mundo"` — the text *after* the marker — while the claim's reading
produces the empty synopsis. -/
theorem claimC2_counterexample :
    (parseSummaryResponse (str "Resumen: Hola mundo Relevancia: Importante")).1
        = str "Hola mundo"
    ∧ (claimC2Parse (str "Resumen: Hola mundo Relevancia: Importante")).1 = []
    ∧ parseSummaryResponse (str "Resumen: Hola mundo Relevancia: Importante")
        ≠ claimC2Parse (str "Resumen: Hola mundo Relevancia: Importante") := by
  refine ⟨?_, ?_, ?_⟩ <;> decide

/-- C2, amended: when relevance annotation is enabled and the per-item
generation call succeeds, `SummarizerAgent._summarize_article` splits the
response on the first relevance marker; the text *after* an optional summary
marker (if that marker is present; the marker and what precedes it are
dropped) becomes the item's synopsis and the text after the relevance marker
becomes the relevance note; if no relevance marker is found the entire
response text becomes the synopsis.  Stated via the independent index-based
parser `amendedC2Parse`. -/
theorem summarize_article_parse_amended (gen : GenOracle) (cfg : SummarizerConfig)
    (topic : Str) (article : Dict) (resp : Str)
    (hok : gen (.articleSummary topic article cfg.include_relevance cfg.max_summary_length)
        = Except.ok resp)
    (hrel : cfg.include_relevance = true) :
    (∀ t : Str, parseSummaryResponse t = amendedC2Parse t)
    ∧ alookup (summarize_article gen cfg topic article) (str "summary")
        = some (amendedC2Parse (strip resp)).1
    ∧ (∀ t : Str, findOcc relevanciaMarker t = none → parseSummaryResponse t = (t, [])) := by
  have hparse : ∀ t : Str, parseSummaryResponse t = amendedC2Parse t := by
    intro t
    unfold parseSummaryResponse amendedC2Parse
    simp only [splitFirst_eq_findOcc]
    cases hf : findOcc relevanciaMarker t with
    | none => simp
    | some i =>
        dsimp only [Option.map]
        cases hg : findOcc resumenMarker (List.take i t) with
        | none => simp
        | some j => simp
  refine ⟨hparse, ?_, ?_⟩
  · unfold summarize_article
    rw [hok]
    simp only [hrel, if_true]
    rw [hparse (strip resp)]
    by_cases hne : (amendedC2Parse (strip resp)).2 = []
    · rw [if_neg (by simp [hne]), alookup_aset_self]
    · rw [if_pos hne, alookup_aset_ne _ _ (by decide), alookup_aset_self]
  · intro t hnone
    unfold parseSummaryResponse
    rw [splitFirst_eq_findOcc, hnone]
    rfl

/-- C2, amended, witness at a concrete response. -/
theorem summarize_article_parse_amended_witness :
    (∀ t : Str, parseSummaryResponse t = amendedC2Parse t)
    ∧ alookup
        (summarize_article (fun _ => Except.ok (str " Resumen: Hola Relevancia: Util "))
          ⟨150, true⟩ (str "IA") [(str "title", str "T")]) (str "summary")
        = some (amendedC2Parse (strip (str " Resumen: Hola Relevancia: Util "))).1
    ∧ (∀ t : Str, findOcc relevanciaMarker t = none → parseSummaryResponse t = (t, [])) :=
  summarize_article_parse_amended (fun _ => Except.ok (str " Resumen: Hola Relevancia: Util "))
    ⟨150, true⟩ (str "IA") [(str "title", str "T")]
    (str " Resumen: Hola Relevancia: Util ") rfl rfl

/-! ## Claim C3 -/

/-- C3: a topic whose item list is empty yields the canned non-empty
"no items found" synopsis and an empty article sequence, and its result is
independent of the generation capability's behaviour (no call is made for
that topic). -/
theorem summarize_empty_topic (gen gen' : GenOracle) (cfg : SummarizerConfig)
    (news : List (Str × List Dict)) (topic : Str)
    (hnd : (news.map Prod.fst).Nodup) (hlk : alookup news topic = some []) :
    alookup (summarize_news_by_topic gen cfg news) topic
        = some ⟨cannedNoNews topic, []⟩
    ∧ cannedNoNews topic ≠ []
    ∧ alookup (summarize_news_by_topic gen cfg news) topic
        = alookup (summarize_news_by_topic gen' cfg news) topic := by
  have key : ∀ g : GenOracle,
      alookup (summarize_news_by_topic g cfg news) topic
        = some ⟨cannedNoNews topic, []⟩ := by
    intro g
    rw [summarize_eq_foldl]
    rw [alookup_foldl_aset_pairs (topicValue g cfg) news [] topic [] hnd hlk]
    simp [topicValue]
  exact ⟨key gen, append_ne_nil_left (append_ne_nil_left (by decide)),
    by rw [key gen, key gen']⟩

/-- C3, witness. -/
theorem summarize_empty_topic_witness :
    alookup
        (summarize_news_by_topic (fun _ => Except.error ()) ⟨150, true⟩
          [(str "IA", [])]) (str "IA")
        = some ⟨cannedNoNews (str "IA"), []⟩
    ∧ cannedNoNews (str "IA") ≠ []
    ∧ alookup (summarize_news_by_topic (fun _ => Except.error ()) ⟨150, true⟩
          [(str "IA", [])]) (str "IA")
        = alookup (summarize_news_by_topic (fun _ => Except.ok (str "x")) ⟨150, true⟩
          [(str "IA", [])]) (str "IA") :=
  summarize_empty_topic (fun _ => Except.error ()) (fun _ => Except.ok (str "x"))
    ⟨150, true⟩ [(str "IA", [])] (str "IA") (by decide) (by decide)

/-! ## Claim C4 -/

/-- C4: when the generation capability raises on an item's synopsis call, the
condensed item's synopsis is the item's original description, or the canned
unavailable string when the description is empty or absent; with relevance
annotation enabled its relevance note is the canned unavailable string
(`_summarize_article` lines 206-215). -/
theorem summarize_article_fallback (gen : GenOracle) (cfg : SummarizerConfig)
    (topic : Str) (article : Dict)
    (hfail : gen (.articleSummary topic article cfg.include_relevance cfg.max_summary_length)
        = Except.error ()) :
    alookup (summarize_article gen cfg topic article) (str "summary")
      = some (if agetD article (str "description") [] = []
              then str "Resumen no disponible."
              else agetD article (str "description") [])
    ∧ (cfg.include_relevance = true →
        alookup (summarize_article gen cfg topic article) (str "relevance")
          = some (str "Información no disponible.")) := by
  unfold summarize_article
  rw [hfail]
  constructor
  · cases hrel : cfg.include_relevance with
    | false =>
        simp only [hrel, Bool.false_eq_true, if_false]
        rw [alookup_aset_self]
        rfl
    | true =>
        simp only [hrel, if_true]
        rw [alookup_aset_ne _ _ (by decide), alookup_aset_self]
        rfl
  · intro hrel
    simp only [hrel, if_true]
    rw [alookup_aset_self]

/-- C4, witness: an article with a description and one without. -/
theorem summarize_article_fallback_witness :
    alookup (summarize_article (fun _ => Except.error ()) ⟨150, true⟩ (str "IA")
        [(str "title", str "T"), (str "description", str "D")]) (str "summary")
      = some (if agetD [(str "title", str "T"), (str "description", str "D")]
                  (str "description") [] = []
              then str "Resumen no disponible."
              else agetD [(str "title", str "T"), (str "description", str "D")]
                  (str "description") [])
    ∧ ((true : Bool) = true →
        alookup (summarize_article (fun _ => Except.error ()) ⟨150, true⟩ (str "IA")
            [(str "title", str "T"), (str "description", str "D")]) (str "relevance")
          = some (str "Información no disponible.")) :=
  summarize_article_fallback (fun _ => Except.error ()) ⟨150, true⟩ (str "IA")
    [(str "title", str "T"), (str "description", str "D")] rfl

/-! ## Claim C9 -/

/-- C9: for every behaviour of the generation capability,
`SummarizerAgent._summarize_article` preserves every key-value pair of the
original article; only the `summary` and `relevance` keys may be added or
overwritten. -/
theorem summarize_article_frame (gen : GenOracle) (cfg : SummarizerConfig)
    (topic : Str) (article : Dict) (k : Str)
    (h1 : k ≠ str "summary") (h2 : k ≠ str "relevance") :
    alookup (summarize_article gen cfg topic article) k = alookup article k := by
  have hset2 : ∀ (s r : Str),
      alookup (aset (aset article (str "summary") s) (str "relevance") r) k
        = alookup article k := by
    intro s r
    rw [alookup_aset_ne _ _ h2, alookup_aset_ne _ _ h1]
  have hset1 : ∀ s : Str,
      alookup (aset article (str "summary") s) k = alookup article k := by
    intro s
    rw [alookup_aset_ne _ _ h1]
  unfold summarize_article
  cases gen (.articleSummary topic article cfg.include_relevance cfg.max_summary_length) with
  | ok resp =>
      dsimp only []
      repeat' split
      all_goals first | exact hset2 _ _ | exact hset1 _
  | error e =>
      dsimp only []
      repeat' split
      all_goals first | exact hset2 _ _ | exact hset1 _

/-- C9, witness: the `title` and `url` pairs survive both a successful and a
failing generation call. -/
theorem summarize_article_frame_witness :
    alookup (summarize_article (fun _ => Except.error ()) ⟨150, true⟩ (str "IA")
        [(str "title", str "T"), (str "url", str "u")]) (str "title")
      = alookup [(str "title", str "T"), (str "url", str "u")] (str "title") :=
  summarize_article_frame (fun _ => Except.error ()) ⟨150, true⟩ (str "IA")
    [(str "title", str "T"), (str "url", str "u")] (str "title")
    (by decide) (by decide)

/-! ## Claim C5 -/

/-- C5: for every behaviour of the search capability, every topic's item list
has length at most `cap` (`max_articles_per_topic`, default 3); accumulation
is query by query, and as soon as the accumulated list reaches the cap it is
truncated to exactly the cap and the remaining queries are never issued (the
result is independent of them). -/
theorem get_news_cap (gen : GenOracle) (search : SearchOracle) (cap : Nat)
    (topics : List Topic) (language : Str) :
    (∀ p ∈ get_news_for_topics gen search cap topics language, p.2.length ≤ cap)
    ∧ (∀ (term : Str) (rest rest' : List Str) (acc : List Dict),
        cap ≤ (acc ++ fetch_from_news_api search term language).length →
          fetchLoop search language cap (term :: rest) acc
            = (acc ++ fetch_from_news_api search term language).take cap
          ∧ fetchLoop search language cap (term :: rest) acc
              = fetchLoop search language cap (term :: rest') acc
          ∧ (fetchLoop search language cap (term :: rest) acc).length = cap) := by
  constructor
  · intro p hp
    unfold get_news_for_topics at hp
    exact mem_foldl_aset_values Topic.name
      (fun t => fetchLoop search language cap (get_search_terms gen t.name t.description) [])
      (fun v => v.length ≤ cap) topics []
      (by intro q hq; exact absurd hq (List.not_mem_nil q))
      (fun t _ => fetchLoop_length_le search language cap _ [] (by simp))
      p hp
  · intro term rest rest' acc h
    refine ⟨fetchLoop_stop search language cap term rest acc h, ?_, ?_⟩
    · rw [fetchLoop_stop search language cap term rest acc h,
        fetchLoop_stop search language cap term rest' acc h]
    · rw [fetchLoop_stop search language cap term rest acc h]
      simp only [List.length_take]
      omega

/-- C5, witness: with a search behaviour returning four records per query and
the default cap 3, the loop truncates after the first query, at exactly 3,
independently of the later queries. -/
theorem get_news_cap_witness :
    (fetchLoop searchW (str "es") 3 [str "q1", str "q2"] []).length = 3
    ∧ fetchLoop searchW (str "es") 3 [str "q1", str "q2"] []
        = fetchLoop searchW (str "es") 3 [str "q1", str "q3"] [] := by
  have h := (get_news_cap genW searchW 3 [] (str "es")).2
    (str "q1") [str "q2"] [str "q3"] [] (by decide)
  exact ⟨h.2.2, h.2.1⟩

/-! ## Claim C10 -/

/-- C10: with pairwise-distinct topic names the fetcher returns exactly one
entry per input topic, keyed by its name and in order — even when every
query-generation call and every search request fails, in which case every
entry's list is empty; and the condenser's output has exactly the keys of
its input mapping. -/
theorem pipeline_topic_keys (gen : GenOracle) (search : SearchOracle) (cap : Nat)
    (language : Str) (topics : List Topic) (cfg : SummarizerConfig)
    (news : List (Str × List Dict))
    (h1 : (topics.map Topic.name).Nodup) (h2 : (news.map Prod.fst).Nodup) :
    (get_news_for_topics gen search cap topics language).map Prod.fst
        = topics.map Topic.name
    ∧ ((∀ n d, gen (GenCall.searchTerms n d) = Except.error ()) →
        (∀ q l, search q l = Except.error ()) →
          get_news_for_topics gen search cap topics language
            = topics.map (fun t => (t.name, ([] : List Dict))))
    ∧ (summarize_news_by_topic gen cfg news).map Prod.fst = news.map Prod.fst := by
  have hfetch : get_news_for_topics gen search cap topics language
      = topics.map (fun t =>
          (t.name, fetchLoop search language cap (get_search_terms gen t.name t.description) [])) := by
    unfold get_news_for_topics
    rw [foldl_aset_append Topic.name
      (fun t => fetchLoop search language cap (get_search_terms gen t.name t.description) [])
      topics [] h1 (by simp)]
    simp
  refine ⟨?_, ?_, ?_⟩
  · rw [hfetch]
    simp [List.map_map, Function.comp]
  · intro hg hs
    rw [hfetch]
    apply List.map_congr_left
    intro t _
    rw [fetchLoop_all_fail search language cap hs]
  · rw [summarize_eq_foldl,
      foldl_aset_append Prod.fst (topicValue gen cfg) news [] h2 (by simp)]
    simp [List.map_map, Function.comp]

/-- C10, witness: two distinct topics, all-failing oracles. -/
theorem pipeline_topic_keys_witness :
    (get_news_for_topics genFail searchFail 3 topicsW (str "es")).map Prod.fst
        = topicsW.map Topic.name
    ∧ get_news_for_topics genFail searchFail 3 topicsW (str "es")
        = topicsW.map (fun t => (t.name, ([] : List Dict)))
    ∧ (summarize_news_by_topic genFail ⟨150, true⟩ newsW).map Prod.fst
        = newsW.map Prod.fst := by
  have h := pipeline_topic_keys genFail searchFail 3 (str "es") topicsW ⟨150, true⟩ newsW
    (by decide) (by decide)
  exact ⟨h.1, h.2.1 (fun n d => rfl) (fun q l => rfl), h.2.2⟩

/-! ## Claim C6 -/

/-- C6: a channel name outside the fixed registry yields an immediate failed
outcome carrying that channel name, independent of the mail configuration and
of the transport's behaviour (no channel implementation is invoked). -/
theorem send_unknown_channel (cfg : EmailConfig) (smtp smtp' : SmtpOracle)
    (user_data newsletter_data : Dict) (channel : Str)
    (h : channel ∉ channelRegistry) :
    send_newsletter cfg smtp user_data newsletter_data channel
      = ⟨false, str "Canal no soportado: " ++ channel, channel, none, none⟩
    ∧ (send_newsletter cfg smtp user_data newsletter_data channel).success = false
    ∧ send_newsletter cfg smtp user_data newsletter_data channel
        = send_newsletter cfg smtp' user_data newsletter_data channel := by
  have key : ∀ s : SmtpOracle,
      send_newsletter cfg s user_data newsletter_data channel
        = ⟨false, str "Canal no soportado: " ++ channel, channel, none, none⟩ := by
    intro s
    unfold send_newsletter
    rw [if_neg h]
  exact ⟨key smtp, by rw [key smtp], by rw [key smtp, key smtp']⟩

/-- C6, witness: the unknown channel `"fax"`. -/
theorem send_unknown_channel_witness :
    send_newsletter cfgFull smtpOk [] [] (str "fax")
      = ⟨false, str "Canal no soportado: " ++ str "fax", str "fax", none, none⟩
    ∧ (send_newsletter cfgFull smtpOk [] [] (str "fax")).success = false
    ∧ send_newsletter cfgFull smtpOk [] [] (str "fax")
        = send_newsletter cfgFull smtpFail [] [] (str "fax") :=
  send_unknown_channel cfgFull smtpOk smtpFail [] [] (str "fax") (by decide)

/-! ## Claim C7 -/

/-- C7: when the recipient has a mail address and the mail credentials are
not all configured, the mail channel returns a successful outcome whose
message marks the delivery as simulated, independent of the transport's
behaviour (no SMTP session is opened). -/
theorem send_email_simulated (cfg : EmailConfig) (smtp smtp' : SmtpOracle)
    (user_data newsletter_data : Dict)
    (hemail : agetD user_data (str "email") [] ≠ [])
    (hcfg : ¬ emailConfigured cfg) :
    send_by_email cfg smtp user_data newsletter_data
      = Except.ok ⟨true, str "Simulación de envío exitosa (modo desarrollo)", str "email",
          some (agetD user_data (str "email") []),
          some (agetD newsletter_data (str "subject") (str "Tu Newsletter Personalizado"))⟩
    ∧ send_by_email cfg smtp user_data newsletter_data
        = send_by_email cfg smtp' user_data newsletter_data := by
  have key : ∀ s : SmtpOracle,
      send_by_email cfg s user_data newsletter_data
        = Except.ok ⟨true, str "Simulación de envío exitosa (modo desarrollo)", str "email",
            some (agetD user_data (str "email") []),
            some (agetD newsletter_data (str "subject") (str "Tu Newsletter Personalizado"))⟩ := by
    intro s
    unfold send_by_email
    rw [if_neg hemail]
    dsimp only []
    rw [if_neg hcfg]
  exact ⟨key smtp, by rw [key smtp, key smtp']⟩

/-- C7, witness: a recipient with a mail address, empty credentials. -/
theorem send_email_simulated_witness :
    send_by_email cfgEmpty smtpFail [(str "email", str "ana@example.com")] []
      = Except.ok ⟨true, str "Simulación de envío exitosa (modo desarrollo)", str "email",
          some (agetD [(str "email", str "ana@example.com")] (str "email") []),
          some (agetD ([] : Dict) (str "subject") (str "Tu Newsletter Personalizado"))⟩
    ∧ send_by_email cfgEmpty smtpFail [(str "email", str "ana@example.com")] []
        = send_by_email cfgEmpty smtpOk [(str "email", str "ana@example.com")] [] :=
  send_email_simulated cfgEmpty smtpFail smtpOk [(str "email", str "ana@example.com")] []
    (by decide) (by decide)

/-! ## Claim C1 -/

/-- C1, counterexample.  The claim quantifies over *every* behaviour of the
structured-template engine, but `format_newsletter` (lines 80-88) passes a
successful render through unchecked: with an engine whose rendering succeeds
with the empty string, the returned `html` field is the empty string. -/
theorem renderer_html_counterexample :
    alookup
        (format_newsletter genFail (fun _ => Except.ok []) (str "1 de enero de 2025") [] [])
        (str "html")
      = some [] := by
  decide

/-- C1, amended: the `text` field is a non-empty string for every behaviour
of the generation capability and of the template engine, and the `html`
field is non-empty whenever the template engine raises on every call (the
non-empty fallback body of `_generate_simple_html`). -/
theorem format_newsletter_bodies (gen : GenOracle) (tmpl : TemplateOracle)
    (today : Str) (user_data : Dict) (summarized_news : List (Str × TopicResult)) :
    agetD (format_newsletter gen tmpl today user_data summarized_news) (str "text") [] ≠ []
    ∧ ((∀ td, tmpl td = Except.error ()) →
        agetD (format_newsletter gen tmpl today user_data summarized_news) (str "html") []
          ≠ []) := by
  constructor
  · unfold format_newsletter
    dsimp only []
    rw [agetD_cons_ne _ _ _ _ _ (by decide), agetD_cons_self]
    unfold generate_text_version
    repeat' apply append_ne_nil_left
    decide
  · intro hfail
    unfold format_newsletter
    dsimp only []
    rw [hfail]
    rw [agetD_cons_self]
    unfold generate_simple_html
    repeat' apply append_ne_nil_left
    decide

/-- C1, amended, witness: concrete all-failing oracles. -/
theorem format_newsletter_bodies_witness :
    agetD (format_newsletter genFail tmplFail (str "1 de enero de 2025") [] [])
        (str "text") [] ≠ []
    ∧ agetD (format_newsletter genFail tmplFail (str "1 de enero de 2025") [] [])
        (str "html") [] ≠ [] :=
  ⟨(format_newsletter_bodies genFail tmplFail (str "1 de enero de 2025") [] []).1,
   (format_newsletter_bodies genFail tmplFail (str "1 de enero de 2025") [] []).2
     (fun td => rfl)⟩

/-! ## Claim C8 -/

/-- C8, counterexample.  The plain-text body embeds the formatted current
date (`_get_formatted_date`, `datetime.now()`): two runs with identical
placeholder inputs and identical deterministic generation/search responses,
executed on different dates, produce different `text` bytes, so the output
is not determined by the inputs and capability responses alone. -/
theorem pipeline_text_date_counterexample :
    pipeline_text genFail searchFail tmplFail cfgEmpty smtpFail
        (str "01 de enero de 2025") (str "mock_user_1") (str "email") (str "es")
      ≠ pipeline_text genFail searchFail tmplFail cfgEmpty smtpFail
        (str "02 de enero de 2025") (str "mock_user_1") (str "email") (str "es") := by
  decide

/-- C8, amended: two mock-data pipeline runs with identical deterministic
generation/search/template responses *and the same current date* produce
byte-identical `text` output; the `text` output is moreover independent of
the mail configuration and of the transport behaviour (it is produced before
dispatch). -/
theorem pipeline_text_deterministic (gen : GenOracle) (search : SearchOracle)
    (tmpl : TemplateOracle) (cfg : EmailConfig) (smtp : SmtpOracle)
    (user_id channel language d d' : Str) (hd : d = d') :
    pipeline_text gen search tmpl cfg smtp d user_id channel language
      = pipeline_text gen search tmpl cfg smtp d' user_id channel language
    ∧ (∀ (cfg' : EmailConfig) (smtp' : SmtpOracle),
        pipeline_text gen search tmpl cfg smtp d user_id channel language
          = pipeline_text gen search tmpl cfg' smtp' d user_id channel language) := by
  subst hd
  exact ⟨rfl, fun _ _ => rfl⟩

/-- C8, amended, witness: a concrete same-date double run, across different
transport states. -/
theorem pipeline_text_deterministic_witness :
    pipeline_text genFail searchFail tmplFail cfgEmpty smtpFail
        (str "01 de enero de 2025") (str "u") (str "email") (str "es")
      = pipeline_text genFail searchFail tmplFail cfgEmpty smtpFail
        (str "01 de enero de 2025") (str "u") (str "email") (str "es")
    ∧ pipeline_text genFail searchFail tmplFail cfgEmpty smtpFail
        (str "01 de enero de 2025") (str "u") (str "email") (str "es")
      = pipeline_text genFail searchFail tmplFail cfgFull smtpOk
        (str "01 de enero de 2025") (str "u") (str "email") (str "es") :=
  ⟨(pipeline_text_deterministic genFail searchFail tmplFail cfgEmpty smtpFail
      (str "u") (str "email") (str "es") (str "01 de enero de 2025")
      (str "01 de enero de 2025") rfl).1,
   (pipeline_text_deterministic genFail searchFail tmplFail cfgEmpty smtpFail
      (str "u") (str "email") (str "es") (str "01 de enero de 2025")
      (str "01 de enero de 2025") rfl).2 cfgFull smtpOk⟩

end Newsletter
